import Mathlib

/-!
Verification of the IMAP protocol engine in
`Assignments/Assignment_1/2020081049-tarea1/imapserver.py`.

The Python code is shallowly embedded: each `handle_*` method of
`IMAPProtocol` becomes a pure Lean function from an explicit session
state (the attributes `logged_in`, `user_mail_dir`, `msg_files`,
`msg_flags` set up in `__init__`) to the list of strings written to the
transport together with the resulting state.  The per-account mail
directory is modelled as an association list `disk` from file name to
raw file content; `os.remove` / `open` act on it.  Python `dict` and
`set` values are modelled by association lists and duplicate-free
lists.  External library calls that the claims depend on
(`int(...)`, `str.upper`, `str.strip`, `str.split`, the two fixed
regular expressions, `email.utils.getaddresses`, `Message.get`) are
modelled by small executable functions documented at their definition.
-/

set_option linter.unusedVariables false

namespace ImapServer

/-- Characters Python treats as whitespace for `str.strip()` / `str.split()`
and the regex class `\s`. -/
def isPySpace (c : Char) : Bool :=
  c = ' ' || c = '\t' || c = '\n' || c = '\r' || c = '\x0b' || c = '\x0c'

/-- Python `str.strip()` with no arguments: drop whitespace from both ends. -/
def pyStrip (s : String) : String :=
  String.mk (((s.data.dropWhile isPySpace).reverse.dropWhile isPySpace).reverse)

/-- Python `str.strip(chars)`: drop any of the given characters from both ends. -/
def pyStripSet (cs : List Char) (s : String) : String :=
  String.mk (((s.data.dropWhile (cs.contains ·)).reverse.dropWhile (cs.contains ·)).reverse)

/-- Python `str.upper()` (the commands involved are ASCII). -/
def pyUpper (s : String) : String := String.mk (s.data.map Char.toUpper)

/-- Python `str.lower()` (the header names involved are ASCII). -/
def pyLower (s : String) : String := String.mk (s.data.map Char.toLower)

/-- Value of a decimal digit string. -/
def digitsToNat (l : List Char) : Nat :=
  l.foldl (fun acc c => acc * 10 + (c.toNat - '0'.toNat)) 0

/-- Python `int(s)`: optional surrounding whitespace, optional sign, then a
nonempty run of decimal digits; anything else raises `ValueError`
(modelled as `none`).  Underscore digit grouping is not modelled. -/
def pyParseInt (s : String) : Option Int :=
  let t := (pyStrip s).data
  let sd : Int × List Char :=
    match t with
    | '-' :: rest => (-1, rest)
    | '+' :: rest => (1, rest)
    | _ => (1, t)
  if !sd.2.isEmpty && sd.2.all Char.isDigit then
    some (sd.1 * Int.ofNat (digitsToNat sd.2))
  else none

/-- Python substring test `pat in s`. -/
def strContains (s pat : String) : Bool :=
  (List.range (s.data.length + 1)).any (fun i => pat.data.isPrefixOf (s.data.drop i))

/-- Python `str.split()` with no argument: split on whitespace runs,
dropping empty pieces. -/
def splitWsAux : List Char → List Char → List (List Char)
  | [], acc => if acc.isEmpty then [] else [acc.reverse]
  | c :: cs, acc =>
    if isPySpace c then
      if acc.isEmpty then splitWsAux cs [] else acc.reverse :: splitWsAux cs []
    else splitWsAux cs (c :: acc)

def pySplitWs (s : String) : List String := (splitWsAux s.data []).map String.mk

/-- Split on every occurrence of one character (Python `str.split(c)`). -/
def splitCharAux (c : Char) : List Char → List Char → List (List Char)
  | [], acc => [acc.reverse]
  | x :: xs, acc =>
    if x = c then acc.reverse :: splitCharAux c xs []
    else splitCharAux c xs (x :: acc)

def splitChar (c : Char) (s : String) : List String :=
  (splitCharAux c s.data []).map String.mk

/-- Python `" ".join(parts)` as used for the address list and flag responses. -/
def joinSpace : List String → String
  | [] => ""
  | [x] => x
  | x :: xs => x ++ " " ++ joinSpace xs

/-- Wrap a value in double quotes, as the f-strings `f'"{v}"'` do. -/
def pyQuote (s : String) : String := "\"" ++ s ++ "\""

/-- Python `v.replace('"', '\\"')`: escape every double quote. -/
def escapeQuotes (s : String) : String :=
  String.mk (s.data.foldr (fun c acc => if c = '"' then '\\' :: '"' :: acc else c :: acc) [])

/-- The regex search `re.search(r'\((.*?)\)', s)` used by `handle_store`:
the text between the first `(` and the first `)` after it (the inputs
are single command lines, so the `.`-excludes-newline caveat is moot). -/
def parenGroup (s : String) : Option String :=
  let afterParen := (s.data.dropWhile (· ≠ '(')).drop 1
  if afterParen.contains ')' then
    some (String.mk (afterParen.takeWhile (· ≠ ')')))
  else none

/-- Python list indexing normalisation: negative indices count from the
end; out-of-bounds indices raise `IndexError` (modelled as `none`). -/
def pyNormIdx (n : Nat) (i : Int) : Option Nat :=
  let j := if i < 0 then i + n else i
  if 0 ≤ j ∧ j < (n : Int) then some j.toNat else none

/-- Python `l[i]` for lists. -/
def pyGetIdx (l : List α) (i : Int) : Option α :=
  match pyNormIdx l.length i with
  | some j => l[j]?
  | none => none

/-- Python `del l[i]` for lists. -/
def pyDelIdx (l : List α) (i : Int) : Option (List α) :=
  match pyNormIdx l.length i with
  | some j => some (l.eraseIdx j)
  | none => none

/-- Python `range(lo, hi)` over integers, ascending. -/
def intRangeAux (lo : Int) : Nat → List Int
  | 0 => []
  | k + 1 => lo :: intRangeAux (lo + 1) k

def intRange (lo hi : Int) : List Int := intRangeAux lo (hi - lo).toNat

/-- Association-list model of a Python `dict`: first binding of a key wins;
insertion of a fresh key appends (matching dict insertion order). -/
def alistGet [BEq κ] (d : List (κ × ν)) (k : κ) : Option ν :=
  match d.find? (fun p => p.1 == k) with
  | some p => some p.2
  | none => none

def alistHas [BEq κ] (d : List (κ × ν)) (k : κ) : Bool :=
  d.any (fun p => p.1 == k)

def alistInsert [BEq κ] (d : List (κ × ν)) (k : κ) (v : ν) : List (κ × ν) :=
  if alistHas d k then d.map (fun p => if p.1 == k then (k, v) else p)
  else d ++ [(k, v)]

/-- Python `del d[k]` (the callers below only delete present keys). -/
def alistDelete [BEq κ] (d : List (κ × ν)) (k : κ) : List (κ × ν) :=
  d.filter (fun p => p.1 != k)

def alistKeys (d : List (κ × ν)) : List κ := d.map (·.1)

/-- Python `set.add`-style insertion into a duplicate-free list. -/
def setAdd (s : List String) (x : String) : List String :=
  if s.contains x then s else s ++ [x]

/-- Python `set.update(l)`. -/
def setUnion (s : List String) (l : List String) : List String :=
  l.foldl setAdd s

/-- Python `set.difference_update(l)`. -/
def setDiff (s : List String) (l : List String) : List String :=
  s.filter (fun x => !l.contains x)

/-- Lexicographic code-point order on character lists, Python's string
order. -/
def charListLe : List Char → List Char → Bool
  | [], _ => true
  | _ :: _, [] => false
  | a :: as, b :: bs =>
    if a = b then charListLe as bs else Nat.blt a.toNat b.toNat

/-- Insertion into an ascending list of strings, for `sorted(...)`. -/
def insSorted (x : String) : List String → List String
  | [] => [x]
  | y :: ys => if charListLe x.data y.data then x :: y :: ys else y :: insSorted x ys

/-- Python `sorted` on strings (lexicographic by code point, stable). -/
def sortStrings (l : List String) : List String := l.foldr insSorted []

/-- The credential dictionary `USUARIOS` (imapserver.py lines 10-14). -/
def USUARIOS : List (String × String) :=
  [("santa@polonorte.com", "password123"),
   ("santa@example.com", "password123"),
   ("senoraClous@polonorte.com", "password123")]

/-- The per-connection attributes set up in `IMAPProtocol.__init__`
(lines 172-177), together with `disk`, the association of file name to
raw content for the account's mail directory, standing for the
filesystem the handlers read and delete from. -/
structure ServerState where
  logged_in : Bool
  user_mail_dir : Option String
  msg_files : List String
  msg_flags : List (Int × List String)
  disk : List (String × String)
  deriving DecidableEq

/-- The state right after `__init__`: not logged in, empty snapshot. -/
def initState (disk : List (String × String)) : ServerState :=
  { logged_in := false, user_mail_dir := none, msg_files := [],
    msg_flags := [], disk := disk }

/-- A parsed mail message as the handlers use it: the ordered header
list of `email.message.Message` (`msg.items()`); body decoding is out
of the claims' scope.  `message_from_string` itself is passed to the
handlers as a parameter `pm`. -/
structure PyMsg where
  headers : List (String × String)
  deriving DecidableEq

/-- `Message.get(name)`: first header whose name matches case-insensitively. -/
def PyMsg.get (m : PyMsg) (name : String) : Option String :=
  (m.headers.find? (fun p => pyLower p.1 == pyLower name)).map (·.2)

/-- Modelled behaviour of Python `email.utils.getaddresses` restricted
to the header shapes this server handles: a comma-separated list whose
elements are bare addr-specs or `Name <addr>` pairs; empty elements
yield no address. -/
def getaddressesModel (s : String) : List (String × String) :=
  (splitChar ',' s).filterMap (fun part =>
    let t := pyStrip part
    if t = "" then none
    else if t.data.contains '<' then
      let disp := pyStrip (String.mk (t.data.takeWhile (· ≠ '<')))
      let rest := (t.data.dropWhile (· ≠ '<')).drop 1
      some (disp, String.mk (rest.takeWhile (· ≠ '>')))
    else some ("", t))

/-- The body of the `for display_name, email_addr in addresses` loop of
`parse_address_list` (lines 29-46): one formatted sub-list per address. -/
def addrSubList (display_name0 email_addr0 : String) : String :=
  let email_addr := pyStrip email_addr0
  let display_name1 :=
    if display_name0 = "" then
      if email_addr.data.contains '@' then
        String.mk (email_addr.data.takeWhile (· ≠ '@'))
      else email_addr
    else display_name0
  let display_name := pyQuote (pyStripSet ['"', ' '] display_name1)
  if email_addr.data.contains '@' then
    let localPart := String.mk (email_addr.data.takeWhile (· ≠ '@'))
    let domain := String.mk ((email_addr.data.dropWhile (· ≠ '@')).drop 1)
    "(" ++ display_name ++ " NIL " ++ pyQuote localPart ++ " " ++ pyQuote domain ++ ")"
  else "NIL"

/-- `parse_address_list` (lines 16-47).  The header value is `none` for
an absent header (Python `None`); an empty string is falsy as in the
source's `if not header_value`. -/
def parse_address_list (header_value : Option String) : String :=
  match header_value with
  | none => "NIL"
  | some hv =>
    if hv = "" then "NIL"
    else
      let addresses := getaddressesModel hv
      if addresses.isEmpty then "NIL"
      else
        "(" ++ joinSpace (addresses.map (fun p => addrSubList p.1 p.2)) ++ ")"

/-- The date field of `_build_envelope` (lines 69-78); `now` stands for
`email.utils.formatdate(time.time(), localtime=True)`. -/
def envDate (msg : PyMsg) (now : String) : String :=
  match msg.get "Date" with
  | some v => if v = "" then pyQuote now else pyQuote (escapeQuotes v)
  | none => pyQuote now

/-- The subject field of `_build_envelope` (lines 80-86). -/
def envSubject (msg : PyMsg) : String :=
  match msg.get "Subject" with
  | some v => if v = "" then "NIL" else pyQuote (escapeQuotes v)
  | none => "NIL"

/-- The message-id field of `_build_envelope` (lines 105-111). -/
def envMsgId (msg : PyMsg) (uid : Int) : String :=
  match msg.get "Message-ID" with
  | some v =>
    if v = "" then pyQuote ("<msg" ++ toString uid ++ "@example.com>")
    else pyQuote (escapeQuotes v)
  | none => pyQuote ("<msg" ++ toString uid ++ "@example.com>")

/-- `_build_envelope` (lines 49-117). -/
def _build_envelope (msg : PyMsg) (uid : Int) (now : String) : String :=
  let date_value := envDate msg now
  let subject_value := envSubject msg
  let from_list := parse_address_list (msg.get "From")
  let sender_list := "NIL"
  let reply_to_list := from_list
  let to_list := parse_address_list (msg.get "To")
  let cc_list := "NIL"
  let bcc_list := "NIL"
  let in_reply_to_value := "NIL"
  let msg_id := envMsgId msg uid
  "(" ++ date_value ++ " " ++ subject_value ++ " " ++ from_list ++ " " ++
    sender_list ++ " " ++ reply_to_list ++ " " ++ to_list ++ " " ++ cc_list ++
    " " ++ bcc_list ++ " " ++ in_reply_to_value ++ " " ++ msg_id ++ ")"

/-- `_extract_headers` (lines 138-145). -/
def _extract_headers (msg : PyMsg) : String :=
  msg.headers.foldl (fun acc p => acc ++ p.1 ++ ": " ++ p.2 ++ "\r\n") ""

/-- `handle_status` (lines 290-309): no state gate, always the untagged
STATUS line plus the tagged OK in a single write. -/
def handle_status (st : ServerState) (tag mailbox items : String) :
    List String × ServerState :=
  let num_msgs := st.msg_files.length
  let uidnext := num_msgs + 1
  (["* STATUS \"" ++ mailbox ++ "\" (MESSAGES " ++ toString num_msgs ++
      " UIDNEXT " ++ toString uidnext ++ " UNSEEN 0 RECENT 0)\r\n" ++
      tag ++ " OK STATUS completed\r\n"], st)

/-- `handle_login` (lines 311-354).  `fs dir` models
`os.path.isdir` plus `os.listdir`: `none` when the directory does not
exist, otherwise its entries.  `mail_storage` is `self.factory.mail_storage`. -/
def handle_login (fs : String → Option (List String)) (mail_storage : String)
    (st : ServerState) (tag username password : String) :
    List String × ServerState :=
  match alistGet USUARIOS username with
  | some pw =>
    if pw = password then
      let st1 := { st with logged_in := true }
      match splitChar '@' username with
      | [local_part, domain] =>
        let dir := mail_storage ++ "/" ++ domain ++ "/" ++ local_part
        let st2 := { st1 with user_mail_dir := some dir }
        match fs dir with
        | some entries =>
          let files := sortStrings (entries.filter
            (fun f => (pyLower f).data.reverse.take 4 = ".eml".data.reverse))
          let flags := (List.range files.length).map
            (fun i => ((i : Int) + 1, ([] : List String)))
          ([tag ++ " OK LOGIN completado\r\n"],
           { st2 with msg_files := files, msg_flags := flags })
        | none =>
          ([tag ++ " OK LOGIN completado\r\n"],
           { st2 with msg_files := [], msg_flags := [] })
      | _ => ([tag ++ " NO Formato de usuario incorrecto\r\n"], st1)
    else ([tag ++ " NO LOGIN fallido\r\n"], st)
  | none => ([tag ++ " NO LOGIN fallido\r\n"], st)

/-- `handle_select` (lines 356-389). -/
def handle_select (st : ServerState) (tag mailbox : String) :
    List String × ServerState :=
  if !st.logged_in then
    ([tag ++ " NO Debe autenticarse primero\r\n"], st)
  else
    let mb := pyUpper (pyStripSet ['"'] mailbox)
    if mb = "INBOX" then
      let num_msgs := st.msg_files.length
      let uidnext := num_msgs + 1
      (["* FLAGS (\\Answered \\Flagged \\Draft \\Deleted \\Seen)\r\n",
        "* " ++ toString num_msgs ++ " EXISTS\r\n",
        "* OK [UIDVALIDITY 1] UIDs valid\r\n",
        "* OK [UIDNEXT " ++ toString uidnext ++ "] Predicted next UID\r\n",
        tag ++ " OK [READ-WRITE] SELECT completed\r\n"], st)
    else ([tag ++ " NO Carpeta no encontrada\r\n"], st)

/-- The four response shapes of `handle_fetch` (lines 447-470); `lit n`
is the byte-count literal `f"{{{n}}}"`. -/
def fetchLiteral (n : Nat) : String := "\x7b" ++ toString n ++ "\x7d"

def fetchBodyOut (label : String) (msg_num : Int) (payload : String) : String :=
  "* " ++ toString msg_num ++ " FETCH (" ++ label ++ " " ++
    fetchLiteral payload.utf8ByteSize ++ "\r\n" ++ payload ++ "\r\n)\r\n"

/-- `handle_fetch` (lines 391-472).  `pm` stands for
`email.message_from_string` and `et` for `_extract_text` (charset
decoding is outside the embedded fragment). -/
def handle_fetch (pm : String → PyMsg) (et : PyMsg → String)
    (st : ServerState) (tag msg_num fetch_args : String) :
    List String × ServerState :=
  if !st.logged_in then
    ([tag ++ " NO Debe autenticarse primero\r\n"], st)
  else
    match pyParseInt msg_num with
    | none => ([tag ++ " BAD Número de mensaje inválido\r\n"], st)
    | some n =>
      let index : Int := n - 1
      if index < 0 ∨ (st.msg_files.length : Int) ≤ index then
        ([tag ++ " NO Mensaje no encontrado\r\n"], st)
      else
        let fname := st.msg_files.getD index.toNat ""
        match alistGet st.disk fname with
        | none =>
          ([tag ++ " NO Error al leer el mensaje: [Errno 2] No such file or directory\r\n"], st)
        | some raw =>
          let msg := pm raw
          let fa := pyUpper fetch_args
          let out :=
            if strContains fa "RFC822" || strContains fa "BODY[]" then
              fetchBodyOut "RFC822" n raw
            else if strContains fa "BODY[HEADER]" then
              fetchBodyOut "BODY[HEADER]" n (_extract_headers msg)
            else if strContains fa "BODY[TEXT]" then
              fetchBodyOut "BODY[TEXT]" n (et msg)
            else fetchBodyOut "RFC822" n raw
          ([out, tag ++ " OK FETCH completed\r\n"], st)

/-- Case-insensitive literal prefix match, returning the rest. -/
def ciPrefix : List Char → List Char → Option (List Char)
  | [], s => some s
  | _, [] => none
  | p :: ps, c :: cs => if p.toLower = c.toLower then ciPrefix ps cs else none

/-- One attempted match of `re.search(r'UID fetch (\S+)\s+\(', command,
re.IGNORECASE)` at the start of `s`: the literal `UID fetch `, a
nonempty run of non-whitespace (the captured group), at least one
whitespace, then `(`. -/
def uidFetchMatchAt (s : List Char) : Option (List Char) :=
  match ciPrefix "uid fetch ".data s with
  | none => none
  | some rest =>
    let grp := rest.takeWhile (fun c => !isPySpace c)
    if grp.isEmpty then none
    else
      let after := rest.drop grp.length
      let ws := after.takeWhile isPySpace
      if ws.isEmpty then none
      else
        match after.drop ws.length with
        | '(' :: _ => some grp
        | _ => none

/-- The leftmost match of the UID FETCH sequence-set regex. -/
def uidFetchSeqArg : List Char → Option (List Char)
  | [] => none
  | c :: cs =>
    match uidFetchMatchAt (c :: cs) with
    | some g => some g
    | none => uidFetchSeqArg cs

/-- Lines 502-516 of `handle_uid_fetch`: turn the captured sequence-set
into the list of UIDs to serve. -/
def parseUids (seq_set : String) (numFiles : Nat) : List Int :=
  if seq_set.data.contains ':' then
    let start_str := String.mk (seq_set.data.takeWhile (· ≠ ':'))
    let end_str := String.mk ((seq_set.data.dropWhile (· ≠ ':')).drop 1)
    let se : Int × Int :=
      match pyParseInt start_str with
      | none => (1, (numFiles : Int))
      | some s =>
        if end_str = "*" then (s, (numFiles : Int))
        else
          match pyParseInt end_str with
          | none => (1, (numFiles : Int))
          | some e => (s, e)
    intRange se.1 (se.2 + 1)
  else
    match pyParseInt seq_set with
    | some v => [v]
    | none => intRange 1 ((numFiles : Int) + 1)

/-- The UID list of `handle_uid_fetch` for a full command line,
including the full-mailbox default when the regex does not match. -/
def uidsOfCommand (command : String) (numFiles : Nat) : List Int :=
  match uidFetchSeqArg command.data with
  | some seqChars => parseUids (String.mk seqChars) numFiles
  | none => intRange 1 ((numFiles : Int) + 1)

/-- The response built for one selected message in the `for` loop of
`handle_uid_fetch` (lines 520-548). -/
def uidFetchRender (pm : String → PyMsg) (now : String)
    (disk : List (String × String)) (command_upper : String)
    (fname : String) (uid : Int) : String :=
  let raw := (alistGet disk fname).getD ""
  let msg := pm raw
  let size := raw.utf8ByteSize
  if strContains command_upper "BODY.PEEK[HEADER.FIELDS" then
    let headers := _extract_headers msg
    let envelope := _build_envelope msg uid now
    "* " ++ toString uid ++ " FETCH (UID " ++ toString uid ++ " RFC822.SIZE " ++
      toString size ++ " FLAGS () INTERNALDATE \"01-Jan-2020 00:00:00 +0000\" ENVELOPE " ++
      envelope ++
      " BODY.PEEK[HEADER.FIELDS (FROM TO CC BCC SUBJECT DATE MESSAGE-ID PRIORITY X-PRIORITY REFERENCES NEWGROUPS IN-REPLY-TO CONTENT-TYPE REPLY-TO)] " ++
      fetchLiteral headers.utf8ByteSize ++ "\r\n" ++ headers ++ "\r\n)\r\n"
  else if strContains command_upper "RFC822" then
    let envelope := _build_envelope msg uid now
    "* " ++ toString uid ++ " FETCH (UID " ++ toString uid ++ " RFC822.SIZE " ++
      toString size ++ " FLAGS () ENVELOPE " ++ envelope ++ " RFC822 " ++
      fetchLiteral size ++ "\r\n" ++ raw ++ "\r\n)\r\n"
  else
    "* " ++ toString uid ++ " FETCH (UID " ++ toString uid ++ " FLAGS ())\r\n"

/-- The `for i, msg_filename in enumerate(self.msg_files)` loop of
`handle_uid_fetch`, carrying the 1-based uid. -/
def uidFetchLoop (pm : String → PyMsg) (now : String)
    (disk : List (String × String)) (command_upper : String)
    (uids : List Int) : List String → Int → List String
  | [], _ => []
  | fname :: rest, uid =>
    if uids.contains uid then
      uidFetchRender pm now disk command_upper fname uid ::
        uidFetchLoop pm now disk command_upper uids rest (uid + 1)
    else uidFetchLoop pm now disk command_upper uids rest (uid + 1)

/-- `handle_uid_fetch` (lines 474-550).  It mutates nothing, so only the
written responses are returned; `now` stands for the current-time date
string interpolated by `_build_envelope`. -/
def handle_uid_fetch (pm : String → PyMsg) (now : String)
    (st : ServerState) (tag command : String) : List String :=
  let command_upper := pyUpper command
  let uids := uidsOfCommand command st.msg_files.length
  uidFetchLoop pm now st.disk command_upper uids st.msg_files 1 ++
    [tag ++ " OK UID FETCH completed\r\n"]

/-- `handle_lsub` (lines 552-568). -/
def handle_lsub (st : ServerState) (tag : String) : List String × ServerState :=
  if !st.logged_in then
    ([tag ++ " NO Debe autenticarse primero\r\n"], st)
  else
    (["* LSUB (\\HasNoChildren) \"/\" INBOX\r\n", tag ++ " OK LSUB completed\r\n"], st)

/-- `handle_list` (lines 570-592). -/
def handle_list (st : ServerState) (tag : String) : List String × ServerState :=
  if !st.logged_in then
    ([tag ++ " NO Debe autenticarse primero\r\n"], st)
  else
    (["* LIST (\\HasNoChildren) \"/\" \"INBOX\"\r\n", tag ++ " OK LIST completed\r\n"], st)

/-- `handle_noop` (lines 609-622). -/
def handle_noop (st : ServerState) (tag : String) : List String × ServerState :=
  ([tag ++ " OK NOOP completed\r\n"], st)

/-- The first loop of `handle_expunge` (lines 648-657): walk the
snapshot with 1-based index, and for every entry whose flag set is
truthy and holds the deletion flag try `os.remove`; a failed removal is
only logged and the index is then not recorded.  Returns the recorded
indices in ascending order and the remaining disk. -/
def expungeCollect : List String → Int → List (Int × List String) →
    List (String × String) → List Int × List (String × String)
  | [], _, _, disk => ([], disk)
  | fname :: rest, i, flags, disk =>
    let hit :=
      match alistGet flags i with
      | some fl => !fl.isEmpty && fl.contains "\\Deleted"
      | none => false
    if hit then
      if alistHas disk fname then
        let r := expungeCollect rest (i + 1) flags (alistDelete disk fname)
        (i :: r.1, r.2)
      else expungeCollect rest (i + 1) flags disk
    else expungeCollect rest (i + 1) flags disk

/-- The second loop of `handle_expunge` (lines 659-661): splice the
recorded entries out, highest index first; given indices are valid, so
`List.eraseIdx` matches Python `del`. -/
def applyExpunge (files : List String) (flags : List (Int × List String))
    (idxs : List Int) : List String × List (Int × List String) :=
  idxs.foldl
    (fun acc i => (acc.1.eraseIdx (i - 1).toNat, alistDelete acc.2 i))
    (files, flags)

/-- `handle_expunge` (lines 624-662). -/
def handle_expunge (st : ServerState) (tag : String) :
    List String × ServerState :=
  if !st.logged_in then
    ([tag ++ " NO Debe autenticarse primero\r\n"], st)
  else
    let c := expungeCollect st.msg_files 1 st.msg_flags st.disk
    let a := applyExpunge st.msg_files st.msg_flags c.1.reverse
    ([tag ++ " OK EXPUNGE completed\r\n"],
     { st with msg_files := a.1, msg_flags := a.2, disk := c.2 })

/-- The untagged current-flags response of `handle_store` (line 711). -/
def storeFlagsResponse (n : Int) (flags : List String) : String :=
  "* " ++ toString n ++ " FETCH (FLAGS (" ++ joinSpace (sortStrings flags) ++ "))\r\n"

/-- `handle_store` (lines 664-729).  The responses are written before
the deletion branch runs, so they are returned even when the branch
raises `IndexError` (modelled as `Except.error`); the redundant
`del self.msg_flags[msg_num_int]` before the full rebuild of
`msg_flags` is subsumed by the rebuild. -/
def handle_store (st : ServerState) (tag msg_num store_args : String) :
    List String × Except String ServerState :=
  if !st.logged_in then
    ([tag ++ " NO Debe autenticarse primero\r\n"], Except.ok st)
  else
    match pyParseInt msg_num with
    | none => ([tag ++ " BAD Número de mensaje inválido\r\n"], Except.ok st)
    | some msg_num_int =>
      let flags0 := (alistGet st.msg_flags msg_num_int).getD []
      let upperArgs := pyUpper store_args
      let flags1 :=
        if strContains upperArgs "+FLAGS" then
          match parenGroup store_args with
          | some fl_str => setUnion flags0 (pySplitWs fl_str)
          | none => flags0
        else if strContains upperArgs "-FLAGS" then
          match parenGroup store_args with
          | some fl_str => setDiff flags0 (pySplitWs fl_str)
          | none => flags0
        else flags0
      let msg_flags1 := alistInsert st.msg_flags msg_num_int flags1
      let out1 := storeFlagsResponse msg_num_int flags1
      let out2 := tag ++ " OK STORE completed\r\n"
      if flags1.contains "\\Deleted" then
        match pyGetIdx st.msg_files (msg_num_int - 1) with
        | none => ([out1, out2], Except.error "IndexError")
        | some fname =>
          let disk1 := alistDelete st.disk fname
          match pyDelIdx st.msg_files (msg_num_int - 1) with
          | none => ([out1, out2], Except.error "IndexError")
          | some files1 =>
            let new_flags := (List.range files1.length).map
              (fun i => ((i : Int) + 1, ([] : List String)))
            ([out1, out2],
             Except.ok { st with msg_files := files1, msg_flags := new_flags,
                                 disk := disk1 })
      else ([out1, out2], Except.ok { st with msg_flags := msg_flags1 })

/-- `handle_search` (lines 731-737). -/
def handle_search (st : ServerState) (tag search_args : String) :
    List String × ServerState :=
  if !st.logged_in then
    ([tag ++ " NO Debe autenticarse primero\r\n"], st)
  else
    (["* SEARCH 1 2 3\r\n", tag ++ " OK SEARCH completed\r\n"], st)

/-- Is `out` a tagged NO response for `tag`. -/
def isTaggedNo (tag out : String) : Bool :=
  (tag ++ " NO").data.isPrefixOf out.data

/-- A trivial stand-in for `email.message_from_string` used when a claim
does not depend on message parsing. -/
def pmEmpty : String → PyMsg := fun _ => { headers := [] }

/-- A reachable logged-in session holding three messages, obtained by a
successful LOGIN against a directory with files `a.eml`, `b.eml`,
`c.eml`, after `STORE 2 +FLAGS (\Deleted)` has not yet run. -/
def threeMsgState : ServerState :=
  { logged_in := true, user_mail_dir := some "/var/mail/polonorte.com/santa",
    msg_files := ["a.eml", "b.eml", "c.eml"],
    msg_flags := [(1, []), (2, []), (3, [])],
    disk := [("a.eml", "A"), ("b.eml", "B"), ("c.eml", "C")] }

/-- `threeMsgState` with message 2 already flagged deleted, the state
reached right before EXPUNGE in the spec's scenario. -/
def threeMsgDeletedState : ServerState :=
  { threeMsgState with msg_flags := [(1, []), (2, ["\\Deleted"]), (3, [])] }

/-- The state `handle_store threeMsgState "a1" "2" "+FLAGS (\Deleted)"`
returns: message 2 spliced out, flags rebuilt empty, file removed. -/
def storeResultState : ServerState :=
  { logged_in := true, user_mail_dir := some "/var/mail/polonorte.com/santa",
    msg_files := ["a.eml", "c.eml"], msg_flags := [(1, []), (2, [])],
    disk := [("a.eml", "A"), ("c.eml", "C")] }

/-- A reachable logged-in session holding exactly one message. -/
def oneMsgState : ServerState :=
  { logged_in := true, user_mail_dir := some "/var/mail/polonorte.com/santa",
    msg_files := ["m1.eml"], msg_flags := [(1, [])], disk := [("m1.eml", "x")] }

/-- A reachable logged-in session over an empty mailbox. -/
def emptyMailboxState : ServerState :=
  { logged_in := true, user_mail_dir := some "/var/mail/polonorte.com/santa",
    msg_files := [], msg_flags := [], disk := [] }

section Helpers

/-- A quoted value is never the protocol null literal. -/
theorem pyQuote_ne_NIL (s : String) : pyQuote s ≠ "NIL" := by
  intro h
  have h2 := congrArg String.data h
  simp only [pyQuote, String.data_append] at h2
  have h4 := congrArg (fun l => l.head?) h2
  simp at h4

/-- Appending a fresh element makes the set contain it. -/
theorem setAdd_contains_self (s : List String) (x : String) :
    (setAdd s x).contains x = true := by
  unfold setAdd
  by_cases h : s.contains x = true
  · rw [if_pos h]; exact h
  · rw [if_neg h]
    simp [List.elem_iff]

/-- Deleting a key from the association list filters it from the keys. -/
theorem alistKeys_delete (d : List (Int × List String)) (k : Int) :
    alistKeys (alistDelete d k) = (alistKeys d).filter (fun x => x != k) := by
  unfold alistKeys alistDelete
  rw [List.filter_map]
  rfl

/-- The second EXPUNGE loop deletes exactly the collected keys from the
flag dictionary, renumbering nothing. -/
theorem applyExpunge_keys (idxs : List Int) (files : List String)
    (flags : List (Int × List String)) :
    alistKeys (applyExpunge files flags idxs).2 =
      (alistKeys flags).filter (fun k => !idxs.contains k) := by
  induction idxs generalizing files flags with
  | nil =>
    simp [applyExpunge, List.contains]
  | cons i rest ih =>
    have hstep : applyExpunge files flags (i :: rest) =
        applyExpunge (files.eraseIdx (i - 1).toNat) (alistDelete flags i) rest := rfl
    rw [hstep, ih, alistKeys_delete, List.filter_filter]
    apply List.filter_congr
    intro k _
    by_cases h : k = i
    · subst h
      simp [List.contains, List.elem]
    · have hk : (k == i) = false := beq_eq_false_iff_ne.mpr h
      simp [List.contains, List.elem, hk, bne]

/-- Membership is stable under reversing the collected index list. -/
theorem contains_reverse_int (l : List Int) (a : Int) :
    l.reverse.contains a = l.contains a := by
  by_cases h : a ∈ l
  · simp [List.elem_iff, h]
  · simp [List.elem_iff, h]

/-- Python indexing with a 0-based in-range index. -/
theorem pyGetIdx_in_range (l : List String) (i : Int) (h0 : 0 ≤ i)
    (h1 : i < (l.length : Int)) :
    pyGetIdx l i = some (l.getD i.toNat "") := by
  have hn : i.toNat < l.length := by omega
  simp only [pyGetIdx, pyNormIdx, if_neg (not_lt.mpr h0)]
  rw [if_pos ⟨h0, h1⟩]
  show l[i.toNat]? = some (l.getD i.toNat "")
  rw [List.getElem?_eq_getElem hn, List.getD_eq_getElem l "" hn]

/-- Python list deletion with a 0-based in-range index. -/
theorem pyDelIdx_in_range (l : List String) (i : Int) (h0 : 0 ≤ i)
    (h1 : i < (l.length : Int)) :
    pyDelIdx l i = some (l.eraseIdx i.toNat) := by
  simp only [pyDelIdx, pyNormIdx, if_neg (not_lt.mpr h0)]
  rw [if_pos ⟨h0, h1⟩]

/-- The UID FETCH loop emits one untagged response per position whose
1-based uid lies in the served uid list. -/
theorem uidFetchLoop_length (pm : String → PyMsg) (now : String)
    (disk : List (String × String)) (cu : String) (uids : List Int)
    (files : List String) (u : Int) :
    (uidFetchLoop pm now disk cu uids files u).length =
      ((intRangeAux u files.length).filter (fun v => uids.contains v)).length := by
  induction files generalizing u with
  | nil => simp [uidFetchLoop, intRangeAux]
  | cons f rest ih =>
    show (uidFetchLoop pm now disk cu uids (f :: rest) u).length = _
    have : intRangeAux u (f :: rest).length = u :: intRangeAux (u + 1) rest.length := rfl
    rw [this]
    by_cases h : u ∈ uids
    · simp [uidFetchLoop, h, List.filter_cons, ih, List.elem_iff]
    · simp [uidFetchLoop, h, List.filter_cons, ih, List.elem_iff]

/-- `takeWhile` of a list split at the first failing element keeps the
prefix. -/
theorem takeWhile_append_first (p : Char → Bool) (c : Char) (a b : List Char)
    (ha : ∀ x ∈ a, p x = true) (hc : p c = false) :
    (a ++ c :: b).takeWhile p = a := by
  induction a with
  | nil => simp [List.takeWhile_cons, hc]
  | cons x xs ih =>
    have hx : p x = true := ha x (List.mem_cons_self x xs)
    have ih2 := ih (fun y hy => ha y (List.mem_cons_of_mem x hy))
    simp [List.takeWhile_cons, hx, ih2]

/-- `dropWhile` of a list split at the first failing element reaches it. -/
theorem dropWhile_append_first (p : Char → Bool) (c : Char) (a b : List Char)
    (ha : ∀ x ∈ a, p x = true) (hc : p c = false) :
    (a ++ c :: b).dropWhile p = c :: b := by
  induction a with
  | nil => simp [List.dropWhile_cons, hc]
  | cons x xs ih =>
    have hx : p x = true := ha x (List.mem_cons_self x xs)
    have ih2 := ih (fun y hy => ha y (List.mem_cons_of_mem x hy))
    simp [List.dropWhile_cons, hx, ih2]

/-- Each formatted address sub-list is a nonempty string. -/
theorem addrSubList_ne_nil (d e : String) : (addrSubList d e).data ≠ [] := by
  unfold addrSubList
  by_cases h : '@' ∈ (pyStrip e).data
  · simp [h, String.data_append]
  · simp [h, String.data_append]

/-- Joining a list whose head is nonempty yields a nonempty string. -/
theorem joinSpace_ne_nil (p : String) (ps : List String) (h : p.data ≠ []) :
    (joinSpace (p :: ps)).data ≠ [] := by
  cases ps with
  | nil => exact h
  | cons q qs =>
    show (p ++ " " ++ joinSpace (q :: qs)).data ≠ []
    simp only [String.data_append]
    intro he
    exact h (List.append_eq_nil.mp (List.append_eq_nil.mp he).1).1

/-- Every run of `handle_store` either raises IndexError, or returns a
state with the file list untouched (no deletion), or returns a state
whose flag dictionary was rebuilt as the all-empty map keyed 1..n over
the remaining files (deletion). -/
theorem handle_store_shape (st : ServerState) (tag num args : String) :
    (∃ outs, handle_store st tag num args = (outs, Except.error "IndexError")) ∨
    (∃ outs st', handle_store st tag num args = (outs, Except.ok st') ∧
        st'.msg_files = st.msg_files) ∨
    (∃ outs st', handle_store st tag num args = (outs, Except.ok st') ∧
        st'.msg_flags = (List.range st'.msg_files.length).map
          (fun i => ((i : Int) + 1, ([] : List String)))) := by
  by_cases hl : st.logged_in = true
  · cases hp : pyParseInt num with
    | none =>
      refine Or.inr (Or.inl ⟨[tag ++ " BAD Número de mensaje inválido\r\n"], st, ?_, rfl⟩)
      simp [handle_store, hl, hp]
    | some n =>
      simp only [handle_store, hl, hp, Bool.not_true, Bool.false_eq_true, if_false]
      repeat' split
      all_goals
        first
          | exact Or.inl ⟨_, rfl⟩
          | exact Or.inr (Or.inl ⟨_, _, rfl, rfl⟩)
          | exact Or.inr (Or.inr ⟨_, _, rfl, rfl⟩)
  · have hl2 : st.logged_in = false := by
      revert hl; cases st.logged_in <;> simp
    refine Or.inr (Or.inl ⟨[tag ++ " NO Debe autenticarse primero\r\n"], st, ?_, rfl⟩)
    simp [handle_store, hl2]

end Helpers

/-- C6 counterexample: "a1 UID FETCH 2 (UID)" carries the well-formed
single number 2, so the claim requires an untagged FETCH response for
UID 2; on a one-message session the command emits no untagged response
at all, only the tagged OK — the emitted set is the parsed set
intersected with the snapshot range, not the parsed set itself. -/
theorem claim6_counterexample :
    uidFetchSeqArg ("a1 UID FETCH 2 (UID)").data = some "2".data ∧
    parseUids "2" oneMsgState.msg_files.length = [2] ∧
    handle_uid_fetch pmEmpty "" oneMsgState "a1" "a1 UID FETCH 2 (UID)" =
      ["a1 OK UID FETCH completed\r\n"] :=
  ⟨rfl, rfl, rfl⟩

/-- C6 amended: UID FETCH serves every UID of the parsed sequence set
that is present in the snapshot: one untagged response per position
1..count whose uid lies in the parsed set (the emitted set is the parsed
set intersected with 1..count), and exactly one tagged OK closes the
command.  The parsed set itself is [N] for a well-formed single number
N, N..M for a well-formed range N:M, N..count for N:*, and the full
range 1..count when the number (or the range start) does not parse or
when the regex finds no sequence-set argument. -/
theorem claim6_amended_uid_fetch :
    (∀ (pm : String → PyMsg) (now : String) (st : ServerState) (tag cmd : String),
        ∃ untagged,
          handle_uid_fetch pm now st tag cmd =
            untagged ++ [tag ++ " OK UID FETCH completed\r\n"] ∧
          untagged.length =
            ((intRange 1 ((st.msg_files.length : Int) + 1)).filter
              (fun u => (uidsOfCommand cmd st.msg_files.length).contains u)).length) ∧
    (∀ (a : String) (n : Nat) (N : Int), ':' ∉ a.data → pyParseInt a = some N →
        parseUids a n = [N]) ∧
    (∀ (a : String) (n : Nat), ':' ∉ a.data → pyParseInt a = none →
        parseUids a n = intRange 1 ((n : Int) + 1)) ∧
    (∀ (a b : String) (n : Nat) (N M : Int), ':' ∉ a.data →
        pyParseInt a = some N → b ≠ "*" → pyParseInt b = some M →
        parseUids (a ++ ":" ++ b) n = intRange N (M + 1)) ∧
    (∀ (a : String) (n : Nat) (N : Int), ':' ∉ a.data → pyParseInt a = some N →
        parseUids (a ++ ":*") n = intRange N ((n : Int) + 1)) ∧
    (∀ (a b : String) (n : Nat), ':' ∉ a.data → pyParseInt a = none →
        parseUids (a ++ ":" ++ b) n = intRange 1 ((n : Int) + 1)) ∧
    (∀ (cmd : String) (n : Nat), uidFetchSeqArg cmd.data = none →
        uidsOfCommand cmd n = intRange 1 ((n : Int) + 1)) := by
  refine ⟨?_, ?_, ?_, ?_, ?_, ?_, ?_⟩
  · intro pm now st tag cmd
    refine ⟨uidFetchLoop pm now st.disk (pyUpper cmd)
      (uidsOfCommand cmd st.msg_files.length) st.msg_files 1, rfl, ?_⟩
    rw [uidFetchLoop_length]
    have hr : intRange 1 ((st.msg_files.length : Int) + 1) =
        intRangeAux 1 st.msg_files.length := by
      unfold intRange
      congr 1
      omega
    rw [hr]
  · intro a n N hc hp
    have hcb : a.data.contains ':' = false := by simp [List.elem_iff, hc]
    simp only [parseUids, hcb, Bool.false_eq_true, if_false, hp]
  · intro a n hc hp
    have hcb : a.data.contains ':' = false := by simp [List.elem_iff, hc]
    simp only [parseUids, hcb, Bool.false_eq_true, if_false, hp]
  · intro a b n N M hc hpa hb hpb
    have hta : ∀ x ∈ a.data, (decide (x ≠ ':') : Bool) = true := fun x hx =>
      decide_eq_true (by rintro rfl; exact hc hx)
    have htc : (decide ((':' : Char) ≠ ':') : Bool) = false := by decide
    have hd : (a ++ ":" ++ b).data = a.data ++ ':' :: b.data := by
      simp [String.data_append]
    have hcb : (a.data ++ ':' :: b.data).contains ':' = true := by
      simp [List.elem_iff]
    have hma : String.mk a.data = a := rfl
    have hmb : String.mk b.data = b := rfl
    simp only [parseUids, hd,
      takeWhile_append_first (fun x => decide (x ≠ ':')) ':' a.data b.data hta htc,
      dropWhile_append_first (fun x => decide (x ≠ ':')) ':' a.data b.data hta htc,
      List.drop_succ_cons, List.drop_zero, hma, hmb, hpa]
    rw [if_pos hcb]
    show intRange
        (if b = "*" then ((N : Int), (n : Int))
         else
           match pyParseInt b with
           | none => ((1 : Int), (n : Int))
           | some e => ((N : Int), e)).1
        ((if b = "*" then ((N : Int), (n : Int))
          else
            match pyParseInt b with
            | none => ((1 : Int), (n : Int))
            | some e => ((N : Int), e)).2 + 1) = intRange N (M + 1)
    rw [if_neg hb, hpb]
  · intro a n N hc hpa
    have hta : ∀ x ∈ a.data, (decide (x ≠ ':') : Bool) = true := fun x hx =>
      decide_eq_true (by rintro rfl; exact hc hx)
    have htc : (decide ((':' : Char) ≠ ':') : Bool) = false := by decide
    have hd : (a ++ ":*").data = a.data ++ ':' :: "*".data := by
      simp [String.data_append]
    have hcb : (a.data ++ ':' :: "*".data).contains ':' = true := by
      simp [List.elem_iff]
    have hma : String.mk a.data = a := rfl
    simp only [parseUids, hd,
      takeWhile_append_first (fun x => decide (x ≠ ':')) ':' a.data "*".data hta htc,
      dropWhile_append_first (fun x => decide (x ≠ ':')) ':' a.data "*".data hta htc,
      List.drop_succ_cons, List.drop_zero, hma, hpa]
    rw [if_pos hcb]
    rfl
  · intro a b n hc hpa
    have hta : ∀ x ∈ a.data, (decide (x ≠ ':') : Bool) = true := fun x hx =>
      decide_eq_true (by rintro rfl; exact hc hx)
    have htc : (decide ((':' : Char) ≠ ':') : Bool) = false := by decide
    have hd : (a ++ ":" ++ b).data = a.data ++ ':' :: b.data := by
      simp [String.data_append]
    have hcb : (a.data ++ ':' :: b.data).contains ':' = true := by
      simp [List.elem_iff]
    have hma : String.mk a.data = a := rfl
    simp only [parseUids, hd,
      takeWhile_append_first (fun x => decide (x ≠ ':')) ':' a.data b.data hta htc,
      hma, hpa]
    rw [if_pos hcb]
  · intro cmd n h
    simp only [uidsOfCommand, h]

/-- C6 witness: the amended statement instantiated on the one-message
session with UID FETCH 2 (UID): the parsed set is [2], the emitted
untagged set is its intersection with the one-element range (empty). -/
theorem claim6_witness :
    parseUids "2" 1 = [2] ∧
    parseUids ("1" ++ ":" ++ "3") 9 = intRange 1 4 ∧
    parseUids ("2" ++ ":*") 5 = intRange 2 6 ∧
    parseUids ("x" ++ ":" ++ "y") 3 = intRange 1 4 ∧
    (∃ untagged,
      handle_uid_fetch pmEmpty "" oneMsgState "a1" "a1 UID FETCH 2 (UID)" =
        untagged ++ ["a1 OK UID FETCH completed\r\n"] ∧
      untagged.length =
        ((intRange 1 ((oneMsgState.msg_files.length : Int) + 1)).filter
          (fun u => (uidsOfCommand "a1 UID FETCH 2 (UID)"
            oneMsgState.msg_files.length).contains u)).length) :=
  ⟨claim6_amended_uid_fetch.2.1 "2" 1 2 (by decide) rfl,
   claim6_amended_uid_fetch.2.2.2.1 "1" "3" 9 1 3 (by decide) rfl (by decide) rfl,
   claim6_amended_uid_fetch.2.2.2.2.1 "2" 5 2 (by decide) rfl,
   claim6_amended_uid_fetch.2.2.2.2.2.1 "x" "y" 3 (by decide) rfl,
   claim6_amended_uid_fetch.1 pmEmpty "" oneMsgState "a1" "a1 UID FETCH 2 (UID)"⟩

/-- C7: the address-list formatter maps the single display-name-free
address "a@b.com" to (("a" NIL "a" "b.com")), substituting the local
part as display name; it maps an absent header and a header whose value
yields zero parseable addresses to the null literal NIL; and on no input
does it produce the empty list (). -/
theorem claim7_address_formatting :
    parse_address_list (some "a@b.com") = "((\"a\" NIL \"a\" \"b.com\"))" ∧
    parse_address_list none = "NIL" ∧
    (∀ s : String, getaddressesModel s = [] → parse_address_list (some s) = "NIL") ∧
    (∀ hv : Option String, parse_address_list hv ≠ "()") := by
  refine ⟨rfl, rfl, ?_, ?_⟩
  · intro s h
    by_cases hs : s = "" <;> simp [parse_address_list, hs, h]
  · intro hv
    match hv with
    | none => decide
    | some s =>
      by_cases hs : s = ""
      · simp only [parse_address_list, hs, if_pos rfl]
        decide
      · cases haddr : getaddressesModel s with
        | nil => simp [parse_address_list, hs, haddr]
        | cons a as =>
          simp only [parse_address_list, hs, if_neg hs, haddr, List.isEmpty_cons,
            Bool.false_eq_true, if_false, List.map_cons]
          intro hcontra
          have h2 := congrArg String.data hcontra
          simp only [String.data_append] at h2
          have h3 := congrArg List.length h2
          simp [List.length_append] at h3
          have h4 : (joinSpace (addrSubList a.1 a.2 ::
              as.map (fun p => addrSubList p.1 p.2))).data.length = 0 := h3
          exact joinSpace_ne_nil _ _ (addrSubList_ne_nil a.1 a.2)
            (List.length_eq_zero.mp h4)

/-- C7 witness: a nonempty header value with zero parseable addresses
formats as NIL. -/
theorem claim7_witness : parse_address_list (some " ") = "NIL" :=
  claim7_address_formatting.2.2.1 " " (by decide)

/-- C8: NOOP writes exactly one tagged OK response and returns the
session state unchanged, in every state; hence any UID FETCH command
(in particular UID FETCH 1 (UID)) returns identical responses, and so an
identical UID, before and after a NOOP. -/
theorem claim8_noop_frame :
    (∀ (st : ServerState) (tag : String),
        handle_noop st tag = ([tag ++ " OK NOOP completed\r\n"], st)) ∧
    (∀ (pm : String → PyMsg) (now : String) (st : ServerState)
        (tag tag2 cmd : String),
        handle_uid_fetch pm now (handle_noop st tag2).2 tag cmd =
          handle_uid_fetch pm now st tag cmd) :=
  ⟨fun _ _ => rfl, fun _ _ _ _ _ _ => rfl⟩

/-- C9: on a logged-in one-message session, STORE 2 +FLAGS (\Deleted)
(sequence number 2 greater than the message count 1) first produces the
untagged FETCH flags response and the tagged OK, and then raises an
unhandled IndexError while indexing position 1 of the one-element file
list, so the deletion branch of STORE is not total over in-protocol
inputs. -/
theorem claim9_store_index_error :
    oneMsgState.logged_in = true ∧
    oneMsgState.msg_files.length < 2 ∧
    handle_store oneMsgState "a1" "2" "+FLAGS (\\Deleted)" =
      ([storeFlagsResponse 2 ["\\Deleted"], "a1 OK STORE completed\r\n"],
       Except.error "IndexError") ∧
    storeFlagsResponse 2 ["\\Deleted"] = "* 2 FETCH (FLAGS (\\Deleted))\r\n" :=
  ⟨rfl, by decide, rfl, by decide⟩

/-- C10: the envelope builder never emits the null literal for the date
or message-id fields: an absent (or empty) Date header yields the quoted
current-time string and an absent (or empty) Message-ID header yields
the quoted generated literal <msg{uid}@example.com>; the envelope is
assembled from these fields with sender, cc, bcc and in-reply-to
constantly NIL, so only subject, from, reply-to and to can be NIL among
the non-constant fields. -/
theorem claim10_envelope_fields :
    (∀ (msg : PyMsg) (now : String), envDate msg now ≠ "NIL") ∧
    (∀ (msg : PyMsg) (uid : Int), envMsgId msg uid ≠ "NIL") ∧
    (∀ (msg : PyMsg) (now : String), msg.get "Date" = none →
        envDate msg now = pyQuote now) ∧
    (∀ (msg : PyMsg) (uid : Int), msg.get "Message-ID" = none →
        envMsgId msg uid = pyQuote ("<msg" ++ toString uid ++ "@example.com>")) ∧
    (∀ (msg : PyMsg) (uid : Int) (now : String),
        _build_envelope msg uid now =
          "(" ++ envDate msg now ++ " " ++ envSubject msg ++ " " ++
            parse_address_list (msg.get "From") ++ " " ++ "NIL" ++ " " ++
            parse_address_list (msg.get "From") ++ " " ++
            parse_address_list (msg.get "To") ++ " " ++ "NIL" ++ " " ++
            "NIL" ++ " " ++ "NIL" ++ " " ++ envMsgId msg uid ++ ")") := by
  refine ⟨?_, ?_, ?_, ?_, fun _ _ _ => rfl⟩
  · intro msg now
    cases hd : msg.get "Date" with
    | none => simp only [envDate, hd]; exact pyQuote_ne_NIL now
    | some v =>
      simp only [envDate, hd]
      by_cases hv : v = ""
      · rw [if_pos hv]; exact pyQuote_ne_NIL now
      · rw [if_neg hv]; exact pyQuote_ne_NIL _
  · intro msg uid
    cases hd : msg.get "Message-ID" with
    | none => simp only [envMsgId, hd]; exact pyQuote_ne_NIL _
    | some v =>
      simp only [envMsgId, hd]
      by_cases hv : v = ""
      · rw [if_pos hv]; exact pyQuote_ne_NIL _
      · rw [if_neg hv]; exact pyQuote_ne_NIL _
  · intro msg now hd
    simp only [envDate, hd]
  · intro msg uid hd
    simp only [envMsgId, hd]

/-- C1 counterexample: before any LOGIN, STATUS answers with the status
report and a tagged OK (not the required tagged NO), and UID FETCH
answers with a tagged OK alone (not a tagged NO), both without the
session being authenticated. -/
theorem claim1_counterexample :
    (initState []).logged_in = false ∧
    handle_status (initState []) "a1" "INBOX" "(MESSAGES)" =
      (["* STATUS \"INBOX\" (MESSAGES 0 UIDNEXT 1 UNSEEN 0 RECENT 0)\r\na1 OK STATUS completed\r\n"],
       initState []) ∧
    ((handle_status (initState []) "a1" "INBOX" "(MESSAGES)").1.all
      (fun o => !isTaggedNo "a1" o)) = true ∧
    handle_uid_fetch pmEmpty "" (initState []) "a2" "a2 UID FETCH 1 (UID)" =
      ["a2 OK UID FETCH completed\r\n"] ∧
    ((handle_uid_fetch pmEmpty "" (initState []) "a2" "a2 UID FETCH 1 (UID)").all
      (fun o => !isTaggedNo "a2" o)) = true :=
  ⟨rfl, rfl, by decide, rfl, by decide⟩

/-- C1 amended: the verbs FETCH, STORE, EXPUNGE, SELECT, LSUB, LIST and
SEARCH are gated on the logged-in flag and answer the tagged NO
"Debe autenticarse primero" with no state change when issued before
LOGIN; STATUS and UID FETCH are not gated at all (STATUS reports the
empty snapshot with a tagged OK, UID FETCH emits just the tagged OK on
the empty snapshot), and no verb is gated on a selected-mailbox state,
so FETCH after LOGIN but before SELECT is served normally. -/
theorem claim1_amended_state_gating :
    (∀ pm et st tag num args, st.logged_in = false →
        handle_fetch pm et st tag num args =
          ([tag ++ " NO Debe autenticarse primero\r\n"], st)) ∧
    (∀ st tag num args, st.logged_in = false →
        handle_store st tag num args =
          ([tag ++ " NO Debe autenticarse primero\r\n"], Except.ok st)) ∧
    (∀ st tag, st.logged_in = false →
        handle_expunge st tag = ([tag ++ " NO Debe autenticarse primero\r\n"], st)) ∧
    (∀ st tag mb, st.logged_in = false →
        handle_select st tag mb = ([tag ++ " NO Debe autenticarse primero\r\n"], st)) ∧
    (∀ st tag, st.logged_in = false →
        handle_lsub st tag = ([tag ++ " NO Debe autenticarse primero\r\n"], st)) ∧
    (∀ st tag, st.logged_in = false →
        handle_list st tag = ([tag ++ " NO Debe autenticarse primero\r\n"], st)) ∧
    (∀ st tag sa, st.logged_in = false →
        handle_search st tag sa = ([tag ++ " NO Debe autenticarse primero\r\n"], st)) ∧
    (∀ st tag mb items,
        handle_status st tag mb items =
          (["* STATUS \"" ++ mb ++ "\" (MESSAGES " ++ toString st.msg_files.length ++
              " UIDNEXT " ++ toString (st.msg_files.length + 1) ++
              " UNSEEN 0 RECENT 0)\r\n" ++ tag ++ " OK STATUS completed\r\n"], st)) ∧
    (∀ pm now st tag cmd, st.msg_files = [] →
        handle_uid_fetch pm now st tag cmd = [tag ++ " OK UID FETCH completed\r\n"]) := by
  refine ⟨?_, ?_, ?_, ?_, ?_, ?_, ?_, fun _ _ _ _ => rfl, ?_⟩
  · intro pm et st tag num args h; simp [handle_fetch, h]
  · intro st tag num args h; simp [handle_store, h]
  · intro st tag h; simp [handle_expunge, h]
  · intro st tag mb h; simp [handle_select, h]
  · intro st tag h; simp [handle_lsub, h]
  · intro st tag h; simp [handle_list, h]
  · intro st tag sa h; simp [handle_search, h]
  · intro pm now st tag cmd h
    simp [handle_uid_fetch, h, uidFetchLoop]

/-- C1 witness: the amended gating facts instantiated on the initial
unauthenticated session. -/
theorem claim1_witness :
    handle_fetch pmEmpty (fun _ => "") (initState []) "t1" "1" "(RFC822)" =
      (["t1 NO Debe autenticarse primero\r\n"], initState []) ∧
    handle_store (initState []) "t2" "1" "+FLAGS (\\Seen)" =
      (["t2 NO Debe autenticarse primero\r\n"], Except.ok (initState [])) ∧
    handle_expunge (initState []) "t3" =
      (["t3 NO Debe autenticarse primero\r\n"], initState []) ∧
    handle_uid_fetch pmEmpty "" (initState []) "t4" "t4 UID FETCH 1 (UID)" =
      ["t4 OK UID FETCH completed\r\n"] :=
  ⟨claim1_amended_state_gating.1 pmEmpty (fun _ => "") (initState []) "t1" "1" "(RFC822)" rfl,
   claim1_amended_state_gating.2.1 (initState []) "t2" "1" "+FLAGS (\\Seen)" rfl,
   claim1_amended_state_gating.2.2.1 (initState []) "t3" rfl,
   claim1_amended_state_gating.2.2.2.2.2.2.2.2 pmEmpty "" (initState []) "t4"
     "t4 UID FETCH 1 (UID)" rfl⟩

/-- C2 counterexample: on the reachable three-message session with
message 2 flagged deleted, EXPUNGE leaves two messages but keys the flag
mapping by the stale numbers 1 and 3, not by the new 1-based positions
1 and 2 as the claim requires. -/
theorem claim2_counterexample :
    (handle_expunge threeMsgDeletedState "a1").2.msg_files = ["a.eml", "c.eml"] ∧
    alistKeys (handle_expunge threeMsgDeletedState "a1").2.msg_flags = [1, 3] ∧
    ([1, 3] : List Int) ≠ [1, 2] :=
  ⟨rfl, rfl, by decide⟩

/-- C2 amended: the deletion paths disagree.  After a STORE-triggered
deletion the per-sequence flag mapping is rebuilt so that its key list
is exactly 1..n for the n remaining messages (all flag sets empty),
but after EXPUNGE the expunged keys are merely deleted from the mapping
and the remaining keys are not renumbered, so entries after an expunged
position keep their old sequence keys; only the message-file list
itself is spliced (renumbering positions implicitly) in both paths. -/
theorem claim2_amended_renumbering :
    (∀ (st : ServerState) (tag num args : String) (outs : List String)
        (st' : ServerState),
        handle_store st tag num args = (outs, Except.ok st') →
        st'.msg_files.length < st.msg_files.length →
        alistKeys st'.msg_flags =
          (List.range st'.msg_files.length).map (fun i => (i : Int) + 1)) ∧
    (∀ (st : ServerState) (tag : String), st.logged_in = true →
        alistKeys (handle_expunge st tag).2.msg_flags =
          (alistKeys st.msg_flags).filter
            (fun k => !(expungeCollect st.msg_files 1 st.msg_flags st.disk).1.contains k)) := by
  constructor
  · intro st tag num args outs st' h hlt
    rcases handle_store_shape st tag num args with
      ⟨o, he⟩ | ⟨o, s2, he, hsame⟩ | ⟨o, s2, he, hflags⟩
    · rw [h] at he
      simp at he
    · rw [h] at he
      simp only [Prod.mk.injEq, Except.ok.injEq] at he
      rw [he.2, hsame] at hlt
      exact absurd hlt (lt_irrefl _)
    · rw [h] at he
      simp only [Prod.mk.injEq, Except.ok.injEq] at he
      rw [he.2, hflags]
      simp [alistKeys, List.map_map]
  · intro st tag h
    simp only [handle_expunge, h, Bool.not_true, Bool.false_eq_true, if_false]
    rw [applyExpunge_keys]
    apply List.filter_congr
    intro k _
    rw [contains_reverse_int]

/-- C2 witness: the amended statement instantiated on reachable
sessions: a STORE deletion on the three-message session rebuilds keys
1..2, and the EXPUNGE flag-key list on the deleted-flag session is the
old key list minus the expunged index. -/
theorem claim2_witness :
    alistKeys storeResultState.msg_flags =
      (List.range storeResultState.msg_files.length).map (fun i => (i : Int) + 1) ∧
    alistKeys (handle_expunge threeMsgDeletedState "a2").2.msg_flags =
      (alistKeys threeMsgDeletedState.msg_flags).filter
        (fun k => !(expungeCollect threeMsgDeletedState.msg_files 1
          threeMsgDeletedState.msg_flags threeMsgDeletedState.disk).1.contains k) :=
  ⟨claim2_amended_renumbering.1 threeMsgState "a1" "2" "+FLAGS (\\Deleted)" _
      storeResultState rfl (by decide),
   claim2_amended_renumbering.2 threeMsgDeletedState "a2" rfl⟩

/-- C3: for every logged-in session and every sequence number n with
1 <= n <= message count, STORE n +FLAGS (\Deleted) succeeds, splices the
nth entry out of the file list (reducing the count by one), rebuilds
the whole flag mapping as empty sets keyed by the new 1-based positions,
and removes the nth file from the on-disk directory. -/
theorem claim3_store_deleted (st : ServerState) (tag msg_num : String) (n : Int)
    (h1 : st.logged_in = true) (h2 : pyParseInt msg_num = some n)
    (h3 : 1 ≤ n) (h4 : n ≤ (st.msg_files.length : Int)) :
    ∃ outs st',
      handle_store st tag msg_num "+FLAGS (\\Deleted)" = (outs, Except.ok st') ∧
      st'.msg_files = st.msg_files.eraseIdx (n - 1).toNat ∧
      st'.msg_files.length + 1 = st.msg_files.length ∧
      st'.msg_flags = (List.range st'.msg_files.length).map
        (fun i => ((i : Int) + 1, ([] : List String))) ∧
      st'.disk = alistDelete st.disk (st.msg_files.getD (n - 1).toNat "") := by
  have h0 : (0 : Int) ≤ n - 1 := by omega
  have h5 : n - 1 < (st.msg_files.length : Int) := by omega
  have hidx : (n - 1).toNat < st.msg_files.length := by omega
  have hget := pyGetIdx_in_range st.msg_files (n - 1) h0 h5
  have hdel := pyDelIdx_in_range st.msg_files (n - 1) h0 h5
  have e1 : strContains (pyUpper "+FLAGS (\\Deleted)") "+FLAGS" = true := rfl
  have e2 : parenGroup "+FLAGS (\\Deleted)" = some "\\Deleted" := rfl
  have e3 : pySplitWs "\\Deleted" = ["\\Deleted"] := rfl
  have e4 : (setUnion ((alistGet st.msg_flags n).getD []) ["\\Deleted"]).contains
      "\\Deleted" = true := setAdd_contains_self _ _
  refine ⟨[storeFlagsResponse n (setUnion ((alistGet st.msg_flags n).getD [])
        (pySplitWs "\\Deleted")), tag ++ " OK STORE completed\r\n"],
    { st with msg_files := st.msg_files.eraseIdx (n - 1).toNat,
              msg_flags := (List.range (st.msg_files.eraseIdx (n - 1).toNat).length).map
                (fun i => ((i : Int) + 1, ([] : List String))),
              disk := alistDelete st.disk (st.msg_files.getD (n - 1).toNat "") },
    ?_, rfl, ?_, rfl, rfl⟩
  · simp only [handle_store, h1, h2, Bool.not_true, Bool.false_eq_true, if_false,
      e1, e2, e3, e4, if_true, hget, hdel]
  · exact List.length_eraseIdx_add_one hidx

/-- C3 witness: STORE 2 +FLAGS (\Deleted) on the reachable three-message
session removes the second entry, leaves two messages with empty flag
sets keyed 1..2, and deletes b.eml from the directory. -/
theorem claim3_witness :
    ∃ outs st',
      handle_store threeMsgState "a1" "2" "+FLAGS (\\Deleted)" = (outs, Except.ok st') ∧
      st'.msg_files = threeMsgState.msg_files.eraseIdx (2 - 1 : Int).toNat ∧
      st'.msg_files.length + 1 = threeMsgState.msg_files.length ∧
      st'.msg_flags = (List.range st'.msg_files.length).map
        (fun i => ((i : Int) + 1, ([] : List String))) ∧
      st'.disk = alistDelete threeMsgState.disk
        (threeMsgState.msg_files.getD (2 - 1 : Int).toNat "") :=
  claim3_store_deleted threeMsgState "a1" "2" 2 rfl rfl (by decide) (by decide)

/-- C4 counterexample: on a logged-in empty mailbox, STORE 5 (numeric
but out of range 1..0) does not reply tagged NO as the claim requires:
it creates a transient flag entry for sequence 5 and replies with the
untagged FETCH flags response and a tagged OK. -/
theorem claim4_counterexample :
    emptyMailboxState.logged_in = true ∧
    pyParseInt "5" = some 5 ∧
    emptyMailboxState.msg_files.length < 5 ∧
    handle_store emptyMailboxState "a1" "5" "+FLAGS (\\Seen)" =
      ([storeFlagsResponse 5 ["\\Seen"], "a1 OK STORE completed\r\n"],
       Except.ok { emptyMailboxState with msg_flags := [(5, ["\\Seen"])] }) ∧
    ([storeFlagsResponse 5 ["\\Seen"], "a1 OK STORE completed\r\n"].all
      (fun o => !isTaggedNo "a1" o)) = true :=
  ⟨rfl, rfl, by decide, rfl, by decide⟩

/-- C4 amended: FETCH replies tagged BAD on a non-numeric sequence and
tagged NO on a numeric out-of-range sequence, as claimed; STORE replies
tagged BAD on a non-numeric sequence, but performs no range check at
all: a numeric out-of-range STORE whose flag update does not produce the
deletion flag is answered with the untagged FETCH flags response and a
tagged OK (and a fresh flag entry is created for the nonexistent
sequence number). -/
theorem claim4_amended_sequence_errors :
    (∀ pm et st tag num args, st.logged_in = true → pyParseInt num = none →
        handle_fetch pm et st tag num args =
          ([tag ++ " BAD Número de mensaje inválido\r\n"], st)) ∧
    (∀ pm et st tag num args n, st.logged_in = true → pyParseInt num = some n →
        (n - 1 < 0 ∨ (st.msg_files.length : Int) ≤ n - 1) →
        handle_fetch pm et st tag num args =
          ([tag ++ " NO Mensaje no encontrado\r\n"], st)) ∧
    (∀ st tag num args, st.logged_in = true → pyParseInt num = none →
        handle_store st tag num args =
          ([tag ++ " BAD Número de mensaje inválido\r\n"], Except.ok st)) ∧
    (∀ st tag num n, st.logged_in = true → pyParseInt num = some n →
        (st.msg_files.length : Int) < n → alistGet st.msg_flags n = none →
        handle_store st tag num "+FLAGS (\\Seen)" =
          ([storeFlagsResponse n ["\\Seen"], tag ++ " OK STORE completed\r\n"],
           Except.ok { st with msg_flags := alistInsert st.msg_flags n ["\\Seen"] })) := by
  refine ⟨?_, ?_, ?_, ?_⟩
  · intro pm et st tag num args h1 h2
    simp [handle_fetch, h1, h2]
  · intro pm et st tag num args n h1 h2 h3
    simp only [handle_fetch, h1, h2, Bool.not_true, Bool.false_eq_true, if_false]
    rw [if_pos h3]
  · intro st tag num args h1 h2
    simp [handle_store, h1, h2]
  · intro st tag num n h1 h2 h3 h4
    have e1 : strContains (pyUpper "+FLAGS (\\Seen)") "+FLAGS" = true := rfl
    have e2 : parenGroup "+FLAGS (\\Seen)" = some "\\Seen" := rfl
    have e3 : pySplitWs "\\Seen" = ["\\Seen"] := rfl
    have e5 : setUnion [] ["\\Seen"] = ["\\Seen"] := rfl
    have e4 : (["\\Seen"] : List String).contains "\\Deleted" = false := rfl
    simp only [handle_store, h1, h2, h4, Bool.not_true, Bool.false_eq_true, if_false,
      e1, e2, e3, if_true, Option.getD_none, e5, e4]

/-- C4 witness: the amended statement instantiated on the reachable
one-message session: FETCH xx is BAD, FETCH 5 is NO, STORE yy is BAD,
and STORE 7 +FLAGS (\Seen) sails through with a tagged OK. -/
theorem claim4_witness :
    handle_fetch pmEmpty (fun _ => "") oneMsgState "t1" "xx" "(RFC822)" =
      (["t1 BAD Número de mensaje inválido\r\n"], oneMsgState) ∧
    handle_fetch pmEmpty (fun _ => "") oneMsgState "t2" "5" "(RFC822)" =
      (["t2 NO Mensaje no encontrado\r\n"], oneMsgState) ∧
    handle_store oneMsgState "t3" "yy" "+FLAGS (\\Seen)" =
      (["t3 BAD Número de mensaje inválido\r\n"], Except.ok oneMsgState) ∧
    handle_store oneMsgState "t4" "7" "+FLAGS (\\Seen)" =
      ([storeFlagsResponse 7 ["\\Seen"], "t4 OK STORE completed\r\n"],
       Except.ok { oneMsgState with msg_flags := alistInsert oneMsgState.msg_flags 7 ["\\Seen"] }) :=
  ⟨claim4_amended_sequence_errors.1 pmEmpty (fun _ => "") oneMsgState "t1" "xx" "(RFC822)" rfl rfl,
   claim4_amended_sequence_errors.2.1 pmEmpty (fun _ => "") oneMsgState "t2" "5" "(RFC822)" 5
     rfl rfl (by decide),
   claim4_amended_sequence_errors.2.2.1 oneMsgState "t3" "yy" "+FLAGS (\\Seen)" rfl rfl,
   claim4_amended_sequence_errors.2.2.2 oneMsgState "t4" "7" 7 rfl rfl (by decide) rfl⟩

/-- C5 counterexample: the LOGIN username "nobody" contains no '@', yet
the failure response is the generic credential-mismatch NO "LOGIN
fallido", not the distinct malformed-username NO "Formato de usuario
incorrecto"; the session state is unchanged. -/
theorem claim5_counterexample :
    "nobody".data.count '@' = 0 ∧
    handle_login (fun _ => none) "/var/mail" (initState []) "a1" "nobody" "secret" =
      (["a1 NO LOGIN fallido\r\n"], initState []) ∧
    ("a1 NO LOGIN fallido\r\n" : String) ≠ "a1 NO Formato de usuario incorrecto\r\n" ∧
    (initState []).logged_in = false :=
  ⟨by decide, rfl, by decide, rfl⟩

/-- C5 amended: every username in the credential table contains exactly
one '@', so a LOGIN whose username does not contain exactly one '@' can
never match a credential and fails with the generic credential-mismatch
NO "LOGIN fallido", leaving the session state unchanged and hence
Unauthenticated; the distinct malformed-username response is reserved
for a credential-matched username that fails the '@'-split, which the
shipped table makes unreachable. -/
theorem claim5_amended_login_malformed :
    (∀ u ∈ USUARIOS.map Prod.fst, u.data.count '@' = 1) ∧
    (∀ (fs : String → Option (List String)) (ms : String) (st : ServerState)
        (tag u p : String), u.data.count '@' ≠ 1 →
        handle_login fs ms st tag u p = ([tag ++ " NO LOGIN fallido\r\n"], st)) := by
  refine ⟨by decide, ?_⟩
  intro fs ms st tag u p h
  have h1 : ("santa@polonorte.com" : String) ≠ u := fun e =>
    h (e ▸ (by decide : ("santa@polonorte.com" : String).data.count '@' = 1))
  have h2 : ("santa@example.com" : String) ≠ u := fun e =>
    h (e ▸ (by decide : ("santa@example.com" : String).data.count '@' = 1))
  have h3 : ("senoraClous@polonorte.com" : String) ≠ u := fun e =>
    h (e ▸ (by decide : ("senoraClous@polonorte.com" : String).data.count '@' = 1))
  have b1 : (("santa@polonorte.com" : String) == u) = false := beq_eq_false_iff_ne.mpr h1
  have b2 : (("santa@example.com" : String) == u) = false := beq_eq_false_iff_ne.mpr h2
  have b3 : (("senoraClous@polonorte.com" : String) == u) = false := beq_eq_false_iff_ne.mpr h3
  have hg : alistGet USUARIOS u = none := by
    simp [alistGet, USUARIOS, List.find?, b1, b2, b3]
  simp [handle_login, hg]

/-- C5 witness: the amended statement instantiated at the '@'-free
username "nobody". -/
theorem claim5_witness :
    handle_login (fun _ => none) "/var/mail" (initState []) "w1" "nobody" "pw" =
      (["w1 NO LOGIN fallido\r\n"], initState []) :=
  claim5_amended_login_malformed.2 (fun _ => none) "/var/mail" (initState [])
    "w1" "nobody" "pw" (by decide)

/-- C10 witness: on a message with no headers the date field is the
quoted current-time string and the message-id field is the quoted
generated literal, neither NIL. -/
theorem claim10_witness :
    envDate ⟨[]⟩ "Tue, 01 Jan 2020 00:00:00 +0000" =
      pyQuote "Tue, 01 Jan 2020 00:00:00 +0000" ∧
    envMsgId ⟨[]⟩ 7 = pyQuote ("<msg" ++ toString (7 : Int) ++ "@example.com>") ∧
    envDate ⟨[]⟩ "Tue, 01 Jan 2020 00:00:00 +0000" ≠ "NIL" :=
  ⟨claim10_envelope_fields.2.2.1 ⟨[]⟩ _ rfl,
   claim10_envelope_fields.2.2.2.1 ⟨[]⟩ 7 rfl,
   claim10_envelope_fields.1 ⟨[]⟩ _⟩

end ImapServer
